import Mathlib

/-!
Shallow embedding of the authentication/session lifecycle controller from
`src/contexts/AuthContext.tsx`.

The controller is React glue around an external auth/data service.  We model
its mutable React state (`useState` hooks plus the single `localStorage` key
`lastUserLocation`) as an explicit `AuthState` record, and each async handler
(`getInitialSession`, the `onAuthStateChange` handler, `fetchUserProfile`,
`createUserProfile`, `signOut`, `restoreSession`) as a pure state-passing
function.  Each outcome of an external-service call (session fetch, profile
query, profile insert, sign-out request) is an explicit parameter, including a
`thrown` alternative for the `catch` paths.  Observable side effects other
than store writes — `console.error` logging, the attempted database insert,
and the scheduled `window.location.href` navigation — are collected in a list
of `Eff` values, in program order.  `signOut` additionally returns a `Bool`
that is `true` exactly when the TypeScript function re-throws to its caller;
every other handler catches all failures and therefore returns no such flag.
-/

namespace AuthSpec

/-- Metadata carried on a supabase user (`user_metadata` in the source):
the display name and avatar URL, both optional. -/
structure UserMetadata where
  full_name : Option String
  avatar_url : Option String
deriving DecidableEq

/-- A supabase `User`: stable id, optional email, metadata. -/
structure User where
  id : String
  email : Option String
  user_metadata : UserMetadata
deriving DecidableEq

/-- A supabase `Session`; opaque to this layer except for the embedded user. -/
structure Session where
  user : User
deriving DecidableEq

/-- A row of the `user_profiles` table (`UserProfile` in `../lib/supabase`). -/
structure UserProfile where
  id : String
  email : String
  full_name : Option String
  avatar_url : Option String
  subscription_status : String
deriving DecidableEq

/-- An error object returned by the data service, with a `code` used to
distinguish the no-rows condition `PGRST116` from other failures. -/
structure DbError where
  code : String
  message : String
deriving DecidableEq

/-- Outcome of the `user_profiles` select query in `fetchUserProfile`:
either a `{ data, error }` pair, or an exception reaching the `catch`. -/
inductive QueryOutcome where
  | res (data : Option UserProfile) (error : Option DbError)
  | thrown
deriving DecidableEq

/-- Outcome of the `user_profiles` insert in `createUserProfile`: either a
`{ data, error }` pair, or an exception reaching the `catch`. -/
inductive InsertOutcome where
  | res (data : Option UserProfile) (error : Option DbError)
  | thrown
deriving DecidableEq

/-- Outcome of `supabase.auth.getSession()`: a `{ session, error }` pair
(the error reduced to its message, the only field the source reads), or an
exception, whose message is absent when the thrown value is not an `Error`. -/
inductive GetSessionOutcome where
  | res (session : Option Session) (errorMessage : Option String)
  | thrown (message : Option String)
deriving DecidableEq

/-- Outcome of `supabase.auth.signOut()`: a `{ error }` result or an
exception thrown before a result is produced. -/
inductive SignOutOutcome where
  | res (error : Option DbError)
  | thrown
deriving DecidableEq

/-- The auth events delivered by `supabase.auth.onAuthStateChange`. -/
inductive AuthEvent where
  | SIGNED_IN
  | SIGNED_OUT
  | TOKEN_REFRESHED
  | other
deriving DecidableEq

/-- Observable side effects of the handlers, in program order:
`console.error` calls (tagged by their first argument), the attempted
`user_profiles` insert with the row the code constructs, the scheduled
full-page navigation of the `SIGNED_IN` branch, and the external sign-out
request issued by `signOut`. -/
inductive Eff where
  | logError (tag : String)
  | insertAttempt (row : UserProfile)
  | navScheduled (path : String)
  | signOutRequested
deriving DecidableEq

/-- The controller state: the six `useState` hooks of `AuthProvider` plus the
single persisted `localStorage` key `lastUserLocation`. -/
structure AuthState where
  user : Option User
  userProfile : Option UserProfile
  session : Option Session
  loading : Bool
  isInitialized : Bool
  sessionError : Option String
  lastUserLocation : Option String
deriving DecidableEq

/-- State at mount: the `useState` initial values (`null`, `null`, `null`,
`true`, `false`, `null`); `lastUserLocation` is whatever survived in
`localStorage` from before this mount. -/
def initialState (storedLocation : Option String) : AuthState :=
  { user := none
  , userProfile := none
  , session := none
  , loading := true
  , isInitialized := false
  , sessionError := none
  , lastUserLocation := storedLocation }

/-- JavaScript `s || null` on an optional string: an absent or empty string
collapses to `null`. -/
def jsOrNull (o : Option String) : Option String :=
  match o with
  | some s => if s = "" then none else some s
  | none => none

/-- JavaScript `s || ''` on an optional string field access `user?.email`. -/
def jsOrEmpty (o : Option String) : String :=
  match o with
  | some s => s
  | none => ""

/-- `storeUserLocation` (source lines 40-44): unconditionally writes the path
to the `lastUserLocation` key. -/
def storeUserLocation (_stored : Option String) (path : String) : Option String :=
  some path

/-- `getStoredLocation` (source lines 46-51): reads the `lastUserLocation`
key, absent when never written. -/
def getStoredLocation (stored : Option String) : Option String :=
  stored

/-- `clearStoredLocation` (source lines 53-57): removes the key. -/
def clearStoredLocation (_stored : Option String) : Option String :=
  none

/-- The Location Memory store operation as the controller performs it at both
of its call sites (the navigation-tracking effect, lines 183-188, and
`signInWithGoogle`, lines 194-197): the current path is written via
`storeUserLocation` only when it differs from the OAuth-callback path
`/auth/callback`; otherwise the stored value is left untouched. -/
def storeCurrentLocation (stored : Option String) (currentPath : String) : Option String :=
  if currentPath ≠ "/auth/callback" then storeUserLocation stored currentPath else stored

/-- The row `createUserProfile` constructs for the insert (source lines
160-166): id from the argument, email `user?.email || ''`, name and avatar
`user?.user_metadata?.field || null`, subscription status `free`; `u` is the
`user` state variable at that moment. -/
def insertedRow (u : Option User) (userId : String) : UserProfile :=
  { id := userId
  , email := jsOrEmpty (u.bind User.email)
  , full_name := jsOrNull (u.bind fun x => x.user_metadata.full_name)
  , avatar_url := jsOrNull (u.bind fun x => x.user_metadata.avatar_url)
  , subscription_status := "free" }

/-- `createUserProfile` (source lines 155-179): attempts the insert of
`insertedRow`; a reported error or an exception is only logged, a success
stores the returned row in `userProfile`. -/
def createUserProfile (st : AuthState) (userId : String) (ins : InsertOutcome) :
    AuthState × List Eff :=
  let row := insertedRow st.user userId
  match ins with
  | InsertOutcome.thrown =>
      (st, [Eff.insertAttempt row, Eff.logError "Error in createUserProfile"])
  | InsertOutcome.res data error =>
    match error with
    | some _ => (st, [Eff.insertAttempt row, Eff.logError "Error creating user profile"])
    | none => ({ st with userProfile := data }, [Eff.insertAttempt row])

/-- The guard of source line 139: an error is fatal to the lookup unless its
code is the no-rows condition `PGRST116`. -/
def isNonNoRowsError (error : Option DbError) : Bool :=
  match error with
  | some e => e.code != "PGRST116"
  | none => false

/-- `fetchUserProfile` (source lines 131-153): queries the profile row; a
non-`PGRST116` error returns after logging; otherwise data present is stored
and data absent triggers `createUserProfile`; an exception is only logged. -/
def fetchUserProfile (st : AuthState) (userId : String)
    (q : QueryOutcome) (ins : InsertOutcome) : AuthState × List Eff :=
  match q with
  | QueryOutcome.thrown => (st, [Eff.logError "Error in fetchUserProfile"])
  | QueryOutcome.res data error =>
    if isNonNoRowsError error then
      (st, [Eff.logError "Error fetching user profile"])
    else
      match data with
      | some d => ({ st with userProfile := some d }, [])
      | none => createUserProfile st userId ins

/-- `getInitialSession` (source lines 61-88), the bootstrap sequence: sets
`loading` and clears `sessionError`, fetches the session; a reported error
records its message, a success mirrors session and user and resolves the
profile when a user is present, an exception records its message or
`Unknown error`; the `finally` block always clears `loading` and sets
`isInitialized`. -/
def getInitialSession (st : AuthState) (g : GetSessionOutcome)
    (q : QueryOutcome) (ins : InsertOutcome) : AuthState × List Eff :=
  let st0 := { st with loading := true, sessionError := none }
  let step : AuthState × List Eff :=
    match g with
    | GetSessionOutcome.thrown message =>
        ({ st0 with sessionError := some (message.getD "Unknown error") },
         [Eff.logError "Error in getInitialSession"])
    | GetSessionOutcome.res session errorMessage =>
      match errorMessage with
      | some m =>
          ({ st0 with sessionError := some m }, [Eff.logError "Error getting session"])
      | none =>
        let st1 := { st0 with session := session, user := session.map Session.user }
        match session with
        | some s => fetchUserProfile st1 s.user.id q ins
        | none => (st1, [])
  ({ step.1 with loading := false, isInitialized := true }, step.2)

/-- The `onAuthStateChange` handler (source lines 94-125): mirrors the event
session into the store, resolves or clears the profile, on `SIGNED_IN`
schedules a navigation to the stored location when it is set and neither the
callback path nor the root, on `SIGNED_OUT` clears the stored location, and
finally runs the guard of line 122, `if (!loading) setLoading(false)`,
exactly as written. -/
def onAuthStateChange (st : AuthState) (event : AuthEvent) (session : Option Session)
    (q : QueryOutcome) (ins : InsertOutcome) : AuthState × List Eff :=
  let st1 := { st with session := session, user := session.map Session.user }
  let prof : AuthState × List Eff :=
    match session with
    | some s => fetchUserProfile st1 s.user.id q ins
    | none => ({ st1 with userProfile := none }, [])
  let st2 := prof.1
  let navEffs : List Eff :=
    match event with
    | AuthEvent.SIGNED_IN =>
      match getStoredLocation st2.lastUserLocation with
      | some lastLocation =>
          if lastLocation != "" && lastLocation != "/auth/callback" && lastLocation != "/" then
            [Eff.navScheduled lastLocation]
          else []
      | none => []
    | _ => []
  let st3 :=
    match event with
    | AuthEvent.SIGNED_OUT => { st2 with lastUserLocation := clearStoredLocation st2.lastUserLocation }
    | _ => st2
  let st4 := if st3.loading = false then { st3 with loading := false } else st3
  (st4, prof.2 ++ navEffs)

/-- `signOut` (source lines 216-231): sets `loading`, issues the external
sign-out; a reported error is logged and thrown, the throw is caught, logged
again and re-thrown; the `finally` block clears `loading` and the stored
location before the exception propagates.  The `Bool` component is `true`
exactly when the function re-throws to its caller. -/
def signOut (st : AuthState) (r : SignOutOutcome) : AuthState × List Eff × Bool :=
  let st1 := { st with loading := true }
  let out : List Eff × Bool :=
    match r with
    | SignOutOutcome.res none => ([Eff.signOutRequested], false)
    | SignOutOutcome.res (some _) =>
        ([Eff.signOutRequested, Eff.logError "Error signing out",
          Eff.logError "Error in signOut"], true)
    | SignOutOutcome.thrown =>
        ([Eff.signOutRequested, Eff.logError "Error in signOut"], true)
  ({ st1 with loading := false, lastUserLocation := clearStoredLocation st1.lastUserLocation },
   out.1, out.2)

/-- `restoreSession` (source lines 233-253): sets `loading`, re-fetches the
session; a reported error or an exception is only logged; a session with a
user is mirrored into the store and its profile resolved; when no session is
returned the store is left untouched (the source has no else branch); the
`finally` block clears `loading`.  All failures are caught, so nothing is
thrown to the caller. -/
def restoreSession (st : AuthState) (g : GetSessionOutcome)
    (q : QueryOutcome) (ins : InsertOutcome) : AuthState × List Eff :=
  let st0 := { st with loading := true }
  let step : AuthState × List Eff :=
    match g with
    | GetSessionOutcome.thrown _ => (st0, [Eff.logError "Error in restoreSession"])
    | GetSessionOutcome.res session errorMessage =>
      match errorMessage with
      | some _ => (st0, [Eff.logError "Error restoring session"])
      | none =>
        match session with
        | some s =>
            let st1 := { st0 with session := some s, user := some s.user }
            fetchUserProfile st1 s.user.id q ins
        | none => (st0, [])
  ({ step.1 with loading := false }, step.2)

/-- An operation the controller can perform after bootstrap, together with
the external outcomes it observes. -/
inductive Op where
  | authEvent (event : AuthEvent) (session : Option Session)
      (q : QueryOutcome) (ins : InsertOutcome)
  | signOutOp (r : SignOutOutcome)
  | restoreOp (g : GetSessionOutcome) (q : QueryOutcome) (ins : InsertOutcome)
deriving DecidableEq

/-- State transition of one post-bootstrap operation. -/
def applyOp (st : AuthState) (op : Op) : AuthState :=
  match op with
  | Op.authEvent event session q ins => (onAuthStateChange st event session q ins).1
  | Op.signOutOp r => (signOut st r).1
  | Op.restoreOp g q ins => (restoreSession st g q ins).1

/-- Runs a sequence of post-bootstrap operations, in order. -/
def runOps (st : AuthState) : List Op → AuthState
  | [] => st
  | op :: ops => runOps (applyOp st op) ops

/-- The context value surface consumed through `useAuth` (the data fields of
`AuthContextType`; the three actions are modelled separately above). -/
structure AuthContextType where
  user : Option User
  userProfile : Option UserProfile
  session : Option Session
  loading : Bool
  isInitialized : Bool
deriving DecidableEq

/-- `useAuth` (source lines 19-25): reading the context outside a provider
yields the `undefined` default and throws; inside a provider it returns the
provider value. -/
def useAuth (context : Option AuthContextType) : Except String AuthContextType :=
  match context with
  | none => Except.error "useAuth must be used within an AuthProvider"
  | some c => Except.ok c

/-- Sample user for concrete counterexamples and witnesses. -/
def sampleUser : User :=
  { id := "u1"
  , email := some "u1@example.com"
  , user_metadata := { full_name := some "User One", avatar_url := none } }

/-- Sample session wrapping `sampleUser`. -/
def sampleSession : Session :=
  { user := sampleUser }

end AuthSpec

namespace AuthSpec

/-! ### Helper lemmas shared by the claim theorems -/

/-- `createUserProfile` changes at most the `userProfile` field of the store. -/
theorem createUserProfile_shape (st : AuthState) (userId : String) (ins : InsertOutcome) :
    ∃ p e, createUserProfile st userId ins = ({ st with userProfile := p }, e) := by
  cases ins with
  | thrown =>
      exact ⟨st.userProfile,
        [Eff.insertAttempt (insertedRow st.user userId),
         Eff.logError "Error in createUserProfile"], rfl⟩
  | res data error =>
    cases error with
    | some e =>
        exact ⟨st.userProfile,
          [Eff.insertAttempt (insertedRow st.user userId),
           Eff.logError "Error creating user profile"], rfl⟩
    | none => exact ⟨data, [Eff.insertAttempt (insertedRow st.user userId)], rfl⟩

/-- `fetchUserProfile` changes at most the `userProfile` field of the store. -/
theorem fetchUserProfile_shape (st : AuthState) (userId : String)
    (q : QueryOutcome) (ins : InsertOutcome) :
    ∃ p e, fetchUserProfile st userId q ins = ({ st with userProfile := p }, e) := by
  cases q with
  | thrown => exact ⟨st.userProfile, [Eff.logError "Error in fetchUserProfile"], rfl⟩
  | res data error =>
    cases h : isNonNoRowsError error with
    | true =>
        refine ⟨st.userProfile, [Eff.logError "Error fetching user profile"], ?_⟩
        simp [fetchUserProfile, h]
    | false =>
      cases data with
      | some d =>
          refine ⟨some d, [], ?_⟩
          simp [fetchUserProfile, h]
      | none =>
          obtain ⟨p, e, hp⟩ := createUserProfile_shape st userId ins
          refine ⟨p, e, ?_⟩
          simp [fetchUserProfile, h, hp]

/-- Profile resolution never touches the `isInitialized` flag. -/
theorem fetchUserProfile_isInitialized (st : AuthState) (userId : String)
    (q : QueryOutcome) (ins : InsertOutcome) :
    (fetchUserProfile st userId q ins).1.isInitialized = st.isInitialized := by
  obtain ⟨p, e, hp⟩ := fetchUserProfile_shape st userId q ins
  rw [hp]

/-- Profile resolution never touches the `loading` flag. -/
theorem fetchUserProfile_loading (st : AuthState) (userId : String)
    (q : QueryOutcome) (ins : InsertOutcome) :
    (fetchUserProfile st userId q ins).1.loading = st.loading := by
  obtain ⟨p, e, hp⟩ := fetchUserProfile_shape st userId q ins
  rw [hp]

/-- Profile resolution never touches the stored session. -/
theorem fetchUserProfile_session (st : AuthState) (userId : String)
    (q : QueryOutcome) (ins : InsertOutcome) :
    (fetchUserProfile st userId q ins).1.session = st.session := by
  obtain ⟨p, e, hp⟩ := fetchUserProfile_shape st userId q ins
  rw [hp]

/-- Profile resolution never touches the stored user identity. -/
theorem fetchUserProfile_user (st : AuthState) (userId : String)
    (q : QueryOutcome) (ins : InsertOutcome) :
    (fetchUserProfile st userId q ins).1.user = st.user := by
  obtain ⟨p, e, hp⟩ := fetchUserProfile_shape st userId q ins
  rw [hp]

/-- The auth-event handler never touches the `isInitialized` flag. -/
theorem onAuthStateChange_isInitialized (st : AuthState) (event : AuthEvent)
    (session : Option Session) (q : QueryOutcome) (ins : InsertOutcome) :
    (onAuthStateChange st event session q ins).1.isInitialized = st.isInitialized := by
  cases session with
  | none => cases event <;> (simp only [onAuthStateChange]; split <;> rfl)
  | some s =>
      have hfp := fetchUserProfile_isInitialized
        { st with session := some s, user := Option.map Session.user (some s) } s.user.id q ins
      cases event <;> (simp only [onAuthStateChange]; split <;> exact hfp)

/-- `signOut` never touches the `isInitialized` flag. -/
theorem signOut_isInitialized (st : AuthState) (r : SignOutOutcome) :
    (signOut st r).1.isInitialized = st.isInitialized := rfl

/-- `restoreSession` never touches the `isInitialized` flag. -/
theorem restoreSession_isInitialized (st : AuthState) (g : GetSessionOutcome)
    (q : QueryOutcome) (ins : InsertOutcome) :
    (restoreSession st g q ins).1.isInitialized = st.isInitialized := by
  cases g with
  | thrown m => rfl
  | res session errorMessage =>
    cases errorMessage with
    | some m => rfl
    | none =>
      cases session with
      | none => rfl
      | some s => exact fetchUserProfile_isInitialized _ _ q ins

/-- No post-bootstrap operation touches the `isInitialized` flag. -/
theorem applyOp_isInitialized (st : AuthState) (op : Op) :
    (applyOp st op).isInitialized = st.isInitialized := by
  cases op with
  | authEvent event session q ins => exact onAuthStateChange_isInitialized st event session q ins
  | signOutOp r => exact signOut_isInitialized st r
  | restoreOp g q ins => exact restoreSession_isInitialized st g q ins

/-- No sequence of post-bootstrap operations touches the `isInitialized` flag. -/
theorem runOps_isInitialized (st : AuthState) (ops : List Op) :
    (runOps st ops).isInitialized = st.isInitialized := by
  induction ops generalizing st with
  | nil => rfl
  | cons op ops ih => exact (ih (applyOp st op)).trans (applyOp_isInitialized st op)

end AuthSpec

namespace AuthSpec

/-! ### Claim theorems -/

/-- C1: for every controller lifetime the `isInitialized` flag starts `false`,
is `true` once the bootstrap sequence `getInitialSession` completes — whatever
the session fetch returned — and stays `true` under every subsequent sequence
of operations (auth events, `signOut`, `restoreSession`). -/
theorem bootstrap_sets_initialized_once (storedLocation : Option String)
    (g : GetSessionOutcome) (q : QueryOutcome) (ins : InsertOutcome) (ops : List Op) :
    (initialState storedLocation).isInitialized = false ∧
    (getInitialSession (initialState storedLocation) g q ins).1.isInitialized = true ∧
    (runOps (getInitialSession (initialState storedLocation) g q ins).1 ops).isInitialized
      = true := by
  refine ⟨rfl, rfl, ?_⟩
  rw [runOps_isInitialized]
  rfl

/-- C2 (code bug): an auth event processed while `loading` is still `true`
leaves `loading` at `true`.  The guard of source line 122 reads
`if (!loading) setLoading(false)`, so the clear only runs when `loading` is
already `false`; the claimed defensive clear never happens. -/
theorem auth_event_leaves_loading_true_bug :
    (onAuthStateChange { initialState none with loading := true }
        AuthEvent.TOKEN_REFRESHED none (QueryOutcome.res none none)
        (InsertOutcome.res none none)).1.loading = true := by
  decide

/-- C3: storing a path through the Location Memory store operation and then
reading it back returns that path, except for the OAuth-callback path, which
leaves the previously stored value (or absence) unchanged. -/
theorem location_store_get_roundtrip (stored : Option String) (path : String) :
    getStoredLocation (storeCurrentLocation stored path) =
      if path = "/auth/callback" then getStoredLocation stored else some path := by
  unfold storeCurrentLocation storeUserLocation getStoredLocation
  by_cases h : path = "/auth/callback"
  · simp [h]
  · simp [h]

/-- C4: when the profile query reports the specific no-rows condition
(`PGRST116`, distinguished from other failures) and the insert succeeds,
resolution performs exactly one insert, of a row whose subscription status is
`free` and whose email, full name and avatar are copied from the currently
known identity metadata when available, and stores the returned row. -/
theorem profile_created_when_absent (st : AuthState) (userId : String)
    (message : String) (returned : UserProfile) :
    fetchUserProfile st userId
        (QueryOutcome.res none (some { code := "PGRST116", message := message }))
        (InsertOutcome.res (some returned) none) =
      ({ st with userProfile := some returned },
       [Eff.insertAttempt
          { id := userId
          , email := jsOrEmpty (st.user.bind User.email)
          , full_name := jsOrNull (st.user.bind fun x => x.user_metadata.full_name)
          , avatar_url := jsOrNull (st.user.bind fun x => x.user_metadata.avatar_url)
          , subscription_status := "free" }]) := by
  rfl

/-- C5: when the profile query finds an existing row, resolution stores the
found row and performs no insert — whatever the insert outcome would have
been, the result carries no insert effect and does not depend on it. -/
theorem profile_existing_row_no_insert (st : AuthState) (userId : String)
    (row : UserProfile) (ins : InsertOutcome) :
    fetchUserProfile st userId (QueryOutcome.res (some row) none) ins =
      ({ st with userProfile := some row }, []) := by
  rfl

/-- C6 counterexample: at a concrete state holding a session and identity,
`restoreSession` observing a successful fetch with no session leaves both in
place — it does not clear session and identity as the claimed bootstrap-shaped
resynchronization would. -/
theorem restoreSession_clears_counterexample :
    (restoreSession
        { initialState none with session := some sampleSession, user := some sampleUser }
        (GetSessionOutcome.res none none) (QueryOutcome.res none none)
        (InsertOutcome.res none none)).1.session = some sampleSession ∧
    (restoreSession
        { initialState none with session := some sampleSession, user := some sampleUser }
        (GetSessionOutcome.res none none) (QueryOutcome.res none none)
        (InsertOutcome.res none none)).1.user = some sampleUser ∧
    (restoreSession
        { initialState none with session := some sampleSession, user := some sampleUser }
        (GetSessionOutcome.res none none) (QueryOutcome.res none none)
        (InsertOutcome.res none none)).1.session ≠ none := by
  refine ⟨rfl, rfl, ?_⟩
  decide

/-- C6 (amended): `restoreSession` re-fetches the session; a session with a
user is stored together with the identity and its profile is resolved; when
no session is returned the store is left unchanged; a reported error or an
exception is only logged (the function is total, nothing reaches the caller);
`loading` is cleared on every path. -/
theorem restoreSession_behavior_amended (st : AuthState) (s : Session)
    (sess : Option Session) (m : String) (tm : Option String)
    (q : QueryOutcome) (ins : InsertOutcome) :
    (restoreSession st (GetSessionOutcome.res (some s) none) q ins).1.session = some s ∧
    (restoreSession st (GetSessionOutcome.res (some s) none) q ins).1.user = some s.user ∧
    (restoreSession st (GetSessionOutcome.res (some s) none) q ins).1.loading = false ∧
    (restoreSession st (GetSessionOutcome.res (some s) none) q ins).1.userProfile =
      (fetchUserProfile { st with loading := true, session := some s, user := some s.user }
        s.user.id q ins).1.userProfile ∧
    (restoreSession st (GetSessionOutcome.res (some s) none) q ins).2 =
      (fetchUserProfile { st with loading := true, session := some s, user := some s.user }
        s.user.id q ins).2 ∧
    restoreSession st (GetSessionOutcome.res none none) q ins =
      ({ st with loading := false }, []) ∧
    restoreSession st (GetSessionOutcome.res sess (some m)) q ins =
      ({ st with loading := false }, [Eff.logError "Error restoring session"]) ∧
    restoreSession st (GetSessionOutcome.thrown tm) q ins =
      ({ st with loading := false }, [Eff.logError "Error in restoreSession"]) := by
  refine ⟨?_, ?_, rfl, rfl, rfl, rfl, rfl, rfl⟩
  · exact fetchUserProfile_session _ _ q ins
  · exact fetchUserProfile_user _ _ q ins

/-- C7: when the bootstrap session fetch fails — a reported error or a thrown
exception — the controller records an error message, session and identity
stay unset, and the sequence still completes with `loading` cleared and
`isInitialized` set; the function is total, so no exception escapes. -/
theorem bootstrap_failure_completes (storedLocation : Option String)
    (sess : Option Session) (m : String) (tm : Option String)
    (q : QueryOutcome) (ins : InsertOutcome) :
    ((getInitialSession (initialState storedLocation)
        (GetSessionOutcome.res sess (some m)) q ins).1.sessionError = some m ∧
     (getInitialSession (initialState storedLocation)
        (GetSessionOutcome.res sess (some m)) q ins).1.session = none ∧
     (getInitialSession (initialState storedLocation)
        (GetSessionOutcome.res sess (some m)) q ins).1.user = none ∧
     (getInitialSession (initialState storedLocation)
        (GetSessionOutcome.res sess (some m)) q ins).1.loading = false ∧
     (getInitialSession (initialState storedLocation)
        (GetSessionOutcome.res sess (some m)) q ins).1.isInitialized = true) ∧
    ((getInitialSession (initialState storedLocation)
        (GetSessionOutcome.thrown tm) q ins).1.sessionError
        = some (tm.getD "Unknown error") ∧
     (getInitialSession (initialState storedLocation)
        (GetSessionOutcome.thrown tm) q ins).1.session = none ∧
     (getInitialSession (initialState storedLocation)
        (GetSessionOutcome.thrown tm) q ins).1.user = none ∧
     (getInitialSession (initialState storedLocation)
        (GetSessionOutcome.thrown tm) q ins).1.loading = false ∧
     (getInitialSession (initialState storedLocation)
        (GetSessionOutcome.thrown tm) q ins).1.isInitialized = true) :=
  ⟨⟨rfl, rfl, rfl, rfl, rfl⟩, ⟨rfl, rfl, rfl, rfl, rfl⟩⟩

/-- C8: `signOut` issues the external sign-out request and, on every
completion path — success, service-reported error, or thrown exception — the
returned state has `loading` cleared and Last Location cleared; the `Bool`
component, `true` exactly when the external sign-out failed, records the
re-raise to the caller, which happens only after that cleanup is already in
the returned state. -/
theorem signOut_cleanup_and_rethrow (st : AuthState) (r : SignOutOutcome) :
    (signOut st r).1.loading = false ∧
    (signOut st r).1.lastUserLocation = none ∧
    (signOut st r).2.1.head? = some Eff.signOutRequested ∧
    (signOut st r).2.2 = (match r with
      | SignOutOutcome.res none => false
      | SignOutOutcome.res (some _) => true
      | SignOutOutcome.thrown => true) := by
  refine ⟨rfl, rfl, ?_, ?_⟩
  · cases r with
    | res e => cases e <;> rfl
    | thrown => rfl
  · cases r with
    | res e => cases e <;> rfl
    | thrown => rfl

/-- C9: a profile query failing with any error other than the no-rows
condition `PGRST116` — a reported error with another code, or a thrown
exception — only logs: the state is returned unchanged (no insert, profile
not set, session and identity untouched) and nothing is thrown. -/
theorem profile_query_error_nonfatal (st : AuthState) (userId : String)
    (data : Option UserProfile) (e : DbError) (ins : InsertOutcome)
    (h : e.code ≠ "PGRST116") :
    fetchUserProfile st userId (QueryOutcome.res data (some e)) ins =
      (st, [Eff.logError "Error fetching user profile"]) ∧
    fetchUserProfile st userId QueryOutcome.thrown ins =
      (st, [Eff.logError "Error in fetchUserProfile"]) := by
  constructor
  · have hb : isNonNoRowsError (some e) = true := by
      simp [isNonNoRowsError, h]
    simp [fetchUserProfile, hb]
  · rfl

/-- Witness for C9 at the concrete error code `500`. -/
theorem profile_query_error_nonfatal_witness :
    ((DbError.mk "500" "boom").code ≠ "PGRST116") ∧
    (fetchUserProfile (initialState none) "u1"
        (QueryOutcome.res none (some (DbError.mk "500" "boom")))
        (InsertOutcome.res none none) =
      (initialState none, [Eff.logError "Error fetching user profile"]) ∧
     fetchUserProfile (initialState none) "u1" QueryOutcome.thrown
        (InsertOutcome.res none none) =
      (initialState none, [Eff.logError "Error in fetchUserProfile"])) :=
  ⟨by decide,
   profile_query_error_nonfatal (initialState none) "u1" none
     (DbError.mk "500" "boom") (InsertOutcome.res none none) (by decide)⟩

/-- C10: `useAuth` outside a provider — the context still holding the
`undefined` default — throws the provider error instead of returning an
undefined or partial context; inside a provider it returns the provider
value. -/
theorem useAuth_requires_provider (c : AuthContextType) :
    useAuth none = Except.error "useAuth must be used within an AuthProvider" ∧
    useAuth (some c) = Except.ok c :=
  ⟨rfl, rfl⟩

end AuthSpec
